import Mathlib

/-!
Verification development for the homey-assistant-agent repository.

The repository is configuration glue: an MCP (tool-server) configuration
loader (`homey_assistant/config/mcp_config.py`), provider configuration
loaders and factories (`homey_assistant/config/providers.py`), and the
worker entry points (`main.py`).  This file gives a shallow embedding of
those parts and proves the spec claims about them.

Python JSON values are modelled by the inductive `Json` below; parsed JSON
objects are association lists in document key order (Python dicts preserve
insertion order).  JSON numbers appearing in configuration documents are
modelled as integers; no claim depends on fractional number values inside
the tool-server document.
-/

namespace HomeyAssistant

/-- A parsed JSON value, as produced by Python's `json.load`. -/
inductive Json where
  | null
  | bool (b : Bool)
  | num (n : Int)
  | str (s : String)
  | arr (items : List Json)
  | obj (fields : List (String × Json))

/-- `fields.get(k)` on a Python dict modelled as an association list:
first binding wins (parsed JSON dicts have unique keys). -/
def lookupField (k : String) : List (String × Json) → Option Json
  | [] => none
  | (k', v) :: rest => if k' = k then some v else lookupField k rest

/-- Python truthiness of a JSON-derived value (`if not x`). -/
def Json.falsy : Json → Bool
  | .null => true
  | .bool b => !b
  | .num n => n == 0
  | .str s => s == ""
  | .arr items => items.isEmpty
  | .obj fields => fields.isEmpty

/-- Python `type(x).__name__` for a JSON-derived value. -/
def jsonTypeName : Json → String
  | .null => "NoneType"
  | .bool _ => "bool"
  | .num _ => "int"
  | .str _ => "str"
  | .arr _ => "list"
  | .obj _ => "dict"

/-- Python `str(x)` as used inside f-string interpolations.  Scalar values
are rendered faithfully; container values are abbreviated — no rendered
message the claims mention interpolates a container value. -/
def pyStr : Json → String
  | .null => "None"
  | .bool b => if b then "True" else "False"
  | .num n => toString n
  | .str s => s
  | .arr _ => "<list>"
  | .obj _ => "<dict>"

/-- An MCP server descriptor: `mcp.MCPServerHTTP(url)` or
`mcp.MCPServerStdio(command, args)` as constructed by the loader. -/
inductive MCPServer where
  | http (url : String)
  | stdio (command : String) (args : List String)
deriving DecidableEq

/-- The `MCPConfigurationError` raise sites of `mcp_config.py`, one
constructor per raise statement, carrying the interpolated data. -/
inductive MCPError where
  | invalidJson (path msg : String)
  | ioReadError (path msg : String)
  | notObject (tyName : String)
  | serversNotObject
  | serverNotObject (name : String)
  | missingType (name : String)
  | unsupportedType (name tyStr : String)
  | httpMissingUrl (name : String)
  | httpUrlNotString (name : String)
  | stdioMissingCommand (name : String)
  | stdioCommandNotString (name : String)
  | argsNotList (name : String)
  | argNotString (name : String) (i : Nat) (tyName : String)

/-- The exception messages, exactly as the f-strings in `mcp_config.py`
render them. -/
def renderError : MCPError → String
  | .invalidJson path msg =>
      "Invalid JSON" ++ " in MCP configuration file " ++ path ++ ": " ++ msg
  | .ioReadError path msg =>
      "Error reading MCP configuration file " ++ path ++ ": " ++ msg
  | .notObject tyName =>
      "MCP configuration must be a JSON object, got " ++ tyName
  | .serversNotObject => "MCP configuration 'servers' must be an object"
  | .serverNotObject name =>
      "Server '" ++ name ++ "' configuration must be an object"
  | .missingType name =>
      "Server '" ++ name ++ "' missing required 'type' field"
  | .unsupportedType name tyStr =>
      "Server '" ++ name ++ "' has unsupported type '" ++ tyStr ++
        "'. Supported types: 'http', 'stdio'"
  | .httpMissingUrl name =>
      "HTTP server '" ++ name ++ "' missing required " ++ "'url'" ++ " field"
  | .httpUrlNotString name =>
      "HTTP server '" ++ name ++ "' " ++ "'url'" ++ " must be a string"
  | .stdioMissingCommand name =>
      "Stdio server '" ++ name ++ "' missing required " ++ "'command'" ++ " field"
  | .stdioCommandNotString name =>
      "Stdio server '" ++ name ++ "' " ++ "'command'" ++ " must be a string"
  | .argsNotList name =>
      "Stdio server '" ++ name ++ "' 'args' must be a list"
  | .argNotString name i tyName =>
      "Stdio server '" ++ name ++ "' " ++ ("args[" ++ toString i ++ "]") ++
        " must be a string, got " ++ tyName

/-- `sub` occurs as a contiguous substring of `s`. -/
def strContains (sub s : String) : Prop := ∃ a b, s = a ++ sub ++ b

/-- The `url` values claim C3 calls invalid: missing, empty, or not a
string. -/
def badUrlVal : Option Json → Bool
  | none => true
  | some (.str u) => u == ""
  | some _ => true

/-- `MCPConfigLoader._create_http_server`. -/
def createHttpServer (name : String) (fields : List (String × Json)) :
    Except MCPError MCPServer :=
  match lookupField "url" fields with
  | none => .error (.httpMissingUrl name)
  | some v =>
      if v.falsy then .error (.httpMissingUrl name)
      else
        match v with
        | .str url => .ok (.http url)
        | _ => .error (.httpUrlNotString name)

/-- The `for i, arg in enumerate(args)` validation loop of
`MCPConfigLoader._create_stdio_server`, started at index `i`. -/
def validateArgs (name : String) (i : Nat) : List Json → Except MCPError (List String)
  | [] => .ok []
  | a :: rest =>
      match a with
      | .str s => (validateArgs name (i + 1) rest).map (fun ss => s :: ss)
      | v => .error (.argNotString name i (jsonTypeName v))

/-- `MCPConfigLoader._create_stdio_server`. -/
def createStdioServer (name : String) (fields : List (String × Json)) :
    Except MCPError MCPServer :=
  match lookupField "command" fields with
  | none => .error (.stdioMissingCommand name)
  | some c =>
      if c.falsy then .error (.stdioMissingCommand name)
      else
        match c with
        | .str command =>
            match (lookupField "args" fields).getD (.arr []) with
            | .arr items => (validateArgs name 0 items).map (fun args => .stdio command args)
            | _ => .error (.argsNotList name)
        | _ => .error (.stdioCommandNotString name)

/-- `MCPConfigLoader._create_server`: type dispatch for one named entry. -/
def createServer (name : String) (cfg : Json) : Except MCPError MCPServer :=
  match cfg with
  | .obj fields =>
      match lookupField "type" fields with
      | none => .error (.missingType name)
      | some t =>
          if t.falsy then .error (.missingType name)
          else
            match t with
            | .str "http" => createHttpServer name fields
            | .str "stdio" => createStdioServer name fields
            | _ => .error (.unsupportedType name (pyStr t))
  | _ => .error (.serverNotObject name)

/-- The per-entry loop of `MCPConfigLoader.load_servers`: each entry is
attempted, a raised `MCPConfigurationError` (or any exception) is caught
and logged, and the loop continues with the remaining entries. -/
def buildServers : List (String × Json) → List MCPServer
  | [] => []
  | (name, cfg) :: rest =>
      match createServer name cfg with
      | .ok s => s :: buildServers rest
      | .error _ => buildServers rest

/-- The state of the configuration file as seen by `load_servers`:
absent, unreadable (`IOError`), unparsable (`json.JSONDecodeError` with
its message), or parsed to a JSON value.  The filesystem and the `json`
stdlib module are external to the repository, so they enter the model as
this oracle. -/
inductive FileState where
  | missing
  | ioFailure (msg : String)
  | jsonFailure (msg : String)
  | content (j : Json)

/-- `MCPConfigLoader.load_servers`. -/
def loadServers (path : String) (fs : FileState) :
    Except MCPError (List MCPServer) :=
  match fs with
  | .missing => .ok []
  | .ioFailure msg => .error (.ioReadError path msg)
  | .jsonFailure msg => .error (.invalidJson path msg)
  | .content j =>
      match j with
      | .obj fields =>
          match (lookupField "servers" fields).getD (.obj []) with
          | .obj entries => .ok (buildServers entries)
          | _ => .error .serversNotObject
      | _ => .error (.notObject (jsonTypeName j))

/-- Serialization of a descriptor back to the JSON document entry shape
(for the round-trip property). -/
def serializeServer : MCPServer → Json
  | .http url => .obj [("type", .str "http"), ("url", .str url)]
  | .stdio command args =>
      .obj [("type", .str "stdio"), ("command", .str command),
            ("args", .arr (args.map Json.str))]

/-- Serialization of a named descriptor set to a whole document. -/
def serializeDoc (entries : List (String × MCPServer)) : Json :=
  .obj [("servers", .obj (entries.map fun e => (e.1, serializeServer e.2)))]

/-- The descriptor invariant from the data model: non-empty `url` for
HTTP, non-empty `command` for stdio. -/
def validServer : MCPServer → Bool
  | .http url => url != ""
  | .stdio command _ => command != ""

/-! ## Provider configuration (`homey_assistant/config/providers.py`) -/

/-- `TTSProvider` enum. -/
inductive TTSProvider where
  | google
  | elevenlabs
deriving DecidableEq

/-- `STTProvider` enum. -/
inductive STTProvider where
  | google
  | deepgram
deriving DecidableEq

/-- `LLMProvider` enum. -/
inductive LLMProvider where
  | google
  | openai
deriving DecidableEq

/-- Python `str.lower()` as applied to provider names: characterwise
ASCII lowercasing (provider names are ASCII, where Python's and this
lowercasing agree). -/
def pyLower (s : String) : String := ⟨s.data.map Char.toLower⟩

/-- The enum constructor call `TTSProvider(name)`, which raises
`ValueError` on a value outside the enumeration. -/
def ttsProviderOfString (s : String) : Except Unit TTSProvider :=
  if s = "google" then .ok .google
  else if s = "elevenlabs" then .ok .elevenlabs
  else .error ()

/-- The enum constructor call `STTProvider(name)`. -/
def sttProviderOfString (s : String) : Except Unit STTProvider :=
  if s = "google" then .ok .google
  else if s = "deepgram" then .ok .deepgram
  else .error ()

/-- The enum constructor call `LLMProvider(name)`. -/
def llmProviderOfString (s : String) : Except Unit LLMProvider :=
  if s = "google" then .ok .google
  else if s = "openai" then .ok .openai
  else .error ()

/-- Provider selection of `ProviderConfigLoader.load_tts_config`:
`os.getenv("TTS_PROVIDER", "google").lower()` fed to the enum
constructor, `ValueError` caught, warning logged, Google substituted.
The returned Bool records whether the warning branch was taken. -/
def selectTTSProvider (env : Option String) : TTSProvider × Bool :=
  let name := pyLower (env.getD "google")
  match ttsProviderOfString name with
  | .ok p => (p, false)
  | .error _ => (.google, true)

/-- Provider selection of `ProviderConfigLoader.load_stt_config`. -/
def selectSTTProvider (env : Option String) : STTProvider × Bool :=
  let name := pyLower (env.getD "google")
  match sttProviderOfString name with
  | .ok p => (p, false)
  | .error _ => (.google, true)

/-- Provider selection of `ProviderConfigLoader.load_llm_config`. -/
def selectLLMProvider (env : Option String) : LLMProvider × Bool :=
  let name := pyLower (env.getD "google")
  match llmProviderOfString name with
  | .ok p => (p, false)
  | .error _ => (.google, true)

/-- The `TTSConfig` dataclass.  Python floats carry no arithmetic in this
code path — they are parsed and passed through — so they are modelled as
exact rationals. -/
structure TTSConfig where
  provider : TTSProvider
  language : String := "pl-PL"
  speaking_rate : Rat := 1.15
  voice_name : Option String := none
  voice_gender : Option String := none
  voice_id : Option String := none
  model_id : Option String := none
  stability : Option Rat := none
  similarity_boost : Option Rat := none
  style : Option Rat := none
  speed : Option Rat := none
  use_speaker_boost : Option Bool := none
deriving DecidableEq

/-- The `STTConfig` dataclass. -/
structure STTConfig where
  provider : STTProvider
  model : String := "latest_long"
  languages : List String := ["pl-PL"]
  punctuate : Bool := false
  smart_format : Option Bool := none
  interim_results : Option Bool := none
deriving DecidableEq

/-- The keyword arguments passed to the `VoiceSettings(**kwargs)`
constructor call in `_create_elevenlabs_tts`: `stability` and
`similarity_boost` are always present in that call, the rest only when
set. -/
structure VoiceSettingsArgs where
  stability : Rat
  similarity_boost : Rat
  style : Option Rat := none
  speed : Option Rat := none
  use_speaker_boost : Option Bool := none
deriving DecidableEq

/-- The keyword arguments passed to the `elevenlabs.TTS(**kwargs)`
constructor call: `none` means the keyword is omitted from the call. -/
structure ElevenLabsTTSArgs where
  voice_id : Option String := none
  model : Option String := none
  voice_settings : Option VoiceSettingsArgs := none
  api_key : Option String := none
deriving DecidableEq

/-- Python truthiness of an optional-string field (`if config.voice_id:`). -/
def pyTruthyStrOpt (v : Option String) : Bool :=
  match v with
  | none => false
  | some s => s != ""

/-- `ProviderFactory._create_elevenlabs_tts`, as the keyword-argument
record of the constructor call it makes.  `apiKeyEnv` is the value of the
`ELEVENLABS_API_KEY` environment variable. -/
def createElevenlabsTTS (apiKeyEnv : Option String) (config : TTSConfig) :
    ElevenLabsTTSArgs :=
  let voice_id := if pyTruthyStrOpt config.voice_id then config.voice_id else none
  let model := if pyTruthyStrOpt config.model_id then config.model_id else none
  let anySettings :=
    config.stability.isSome || config.similarity_boost.isSome ||
      config.style.isSome || config.speed.isSome || config.use_speaker_boost.isSome
  let voice_settings : Option VoiceSettingsArgs :=
    if anySettings then
      some { stability := config.stability.getD 0.5,
             similarity_boost := config.similarity_boost.getD 0.75,
             style := config.style,
             speed := config.speed,
             use_speaker_boost := config.use_speaker_boost }
    else none
  let api_key := if pyTruthyStrOpt apiKeyEnv then apiKeyEnv else none
  { voice_id := voice_id, model := model, voice_settings := voice_settings,
    api_key := api_key }

/-- The keyword arguments passed to the `deepgram.STT(**kwargs)`
constructor call. -/
structure DeepgramSTTArgs where
  model : String
  language : String
  smart_format : Option Bool := none
  interim_results : Option Bool := none
  punctuate : Option Bool := none
deriving DecidableEq

/-- `ProviderFactory._create_deepgram_stt` as the keyword-argument record
of its constructor call.  `config.punctuate` is a plain (non-optional)
bool field, so its `is not None` guard always passes and the keyword is
always forwarded. -/
def createDeepgramSTT (config : STTConfig) : DeepgramSTTArgs :=
  { model := config.model,
    language := config.languages.headD "pl-PL",
    smart_format := config.smart_format,
    interim_results := config.interim_results,
    punctuate := some config.punctuate }

/-! ## Worker entry points (`main.py`) -/

/-- The five sequential steps of `entrypoint`. -/
inductive Step where
  | createSession
  | createRoomOptions
  | startSession
  | connectRoom
  | greet
deriving DecidableEq

/-- The order in which `entrypoint` performs its steps. -/
def entrypointOrder : List Step :=
  [.createSession, .createRoomOptions, .startSession, .connectRoom, .greet]

/-- `entrypoint`: the straight-line step sequence inside one
`try`/`except` whose handler logs and re-raises.  The oracle gives each
step's outcome (`none` = success, `some e` = the exception it raises);
the result is the list of steps actually attempted, in order, together
with the exception propagated to the caller, if any. -/
def runEntrypoint (oracle : Step → Option String) : List Step × Option String :=
  match oracle .createSession with
  | some e => ([.createSession], some e)
  | none =>
  match oracle .createRoomOptions with
  | some e => ([.createSession, .createRoomOptions], some e)
  | none =>
  match oracle .startSession with
  | some e => ([.createSession, .createRoomOptions, .startSession], some e)
  | none =>
  match oracle .connectRoom with
  | some e =>
      ([.createSession, .createRoomOptions, .startSession, .connectRoom], some e)
  | none =>
  match oracle .greet with
  | some e => (entrypointOrder, some e)
  | none => (entrypointOrder, none)

/-- The `proc.userdata` keys `prewarm` writes: the outer `Option` is
"key present in the dict"; the inner `Option α` is the stored VAD value,
which the outer exception handler sets to Python `None`. -/
structure Userdata (α : Type) where
  vad : Option (Option α) := none
  mcp_servers : Option (List MCPServer) := none
deriving DecidableEq

/-- `prewarm`: load the VAD model, then load the MCP servers inside an
inner `try` whose handlers (for `MCPConfigurationError` and for any other
exception) log and fall back to `[]`; the outer `try` catches a VAD-load
failure and sets both keys to their defaults. -/
def prewarm {α : Type} (vadResult : Except String α)
    (mcpResult : Except MCPError (List MCPServer)) : Userdata α :=
  match vadResult with
  | .error _ => { vad := some none, mcp_servers := some [] }
  | .ok v =>
      match mcpResult with
      | .ok servers => { vad := some (some v), mcp_servers := some servers }
      | .error _ => { vad := some (some v), mcp_servers := some [] }

/-! ## Concrete inputs used by witnesses and counterexamples -/

/-- A document body with one valid HTTP entry and one invalid entry. -/
def demoEntries : List (String × Json) :=
  [("a", .obj [("type", .str "http"), ("url", .str "http://x/mcp")]),
   ("b", .obj [("type", .str "bogus")])]

/-- An ElevenLabs TTS configuration with `style` set and every other
voice setting absent. -/
def styleOnlyConfig : TTSConfig :=
  { provider := .elevenlabs, style := some 0.3 }

/-- An ElevenLabs TTS configuration with every voice setting absent. -/
def emptyElevenConfig : TTSConfig := { provider := .elevenlabs }

/-- A Deepgram STT configuration with both optional flags absent. -/
def plainSTTConfig : STTConfig := { provider := .deepgram }

/-! ## Helper lemmas -/

/-- The catch-and-continue loop keeps exactly the entries whose validation
succeeds, in order. -/
theorem buildServers_eq_filterMap (entries : List (String × Json)) :
    buildServers entries =
      entries.filterMap fun e => (createServer e.1 e.2).toOption := by
  induction entries with
  | nil => rfl
  | cons hd tl ih =>
      obtain ⟨n, c⟩ := hd
      cases hc : createServer n c with
      | ok s => simp [buildServers, hc, ih, Except.toOption, List.filterMap_cons]
      | error err => simp [buildServers, hc, ih, Except.toOption, List.filterMap_cons]

/-- The argument-validation loop accepts a list of strings and returns
them unchanged. -/
theorem validateArgs_strings (name : String) (ss : List String) :
    ∀ i, validateArgs name i (ss.map Json.str) = .ok ss := by
  induction ss with
  | nil => intro i; rfl
  | cons hd tl ih => intro i; simp [validateArgs, ih (i + 1), Except.map]

/-- The argument-validation loop raises at the first non-string element,
naming its index. -/
theorem validateArgs_first_bad (name : String) (pre : List String)
    (v : Json) (post : List Json) (hv : ∀ s, v ≠ Json.str s) :
    ∀ i, validateArgs name i (pre.map Json.str ++ v :: post) =
      .error (.argNotString name (i + pre.length) (jsonTypeName v)) := by
  induction pre with
  | nil =>
      intro i
      cases v with
      | str s => exact absurd rfl (hv s)
      | null => simp [validateArgs]
      | bool b => simp [validateArgs]
      | num n => simp [validateArgs]
      | arr items => simp [validateArgs]
      | obj fields => simp [validateArgs]
  | cons hd tl ih =>
      intro i
      simp only [List.map_cons, List.cons_append, validateArgs, Except.map,
        List.length_cons, List.append_eq]
      rw [ih (i + 1)]
      have h : i + 1 + tl.length = i + (tl.length + 1) := by omega
      rw [h]

/-! ## Claim theorems -/

/-- Claim C1: for every document whose top-level shape is valid (an object
whose `servers` field is an object), `load_servers` returns exactly the
descriptors of the valid entries — each per-entry failure is caught and
the entry skipped — and never raises because one named entry is
malformed. -/
theorem load_servers_skips_invalid_entries (path : String)
    (fields entries : List (String × Json))
    (h : lookupField "servers" fields = some (.obj entries)) :
    loadServers path (.content (.obj fields)) =
      .ok (entries.filterMap fun e => (createServer e.1 e.2).toOption) := by
  simp [loadServers, h, buildServers_eq_filterMap]

/-- Witness for C1: a document with one valid HTTP entry and one entry of
unsupported type loads successfully and yields exactly the valid
descriptor. -/
theorem load_servers_skips_invalid_entries_witness :
    loadServers "mcp_config.json"
        (.content (.obj [("servers", .obj demoEntries)])) =
      .ok [.http "http://x/mcp"] := by
  rw [load_servers_skips_invalid_entries "mcp_config.json"
    [("servers", .obj demoEntries)] demoEntries rfl]
  rfl

/-- Claim C5: malformed JSON text, a non-object document, and a non-object
`servers` field each raise an `MCPConfigurationError`; in the
malformed-JSON case the message contains "Invalid JSON". -/
theorem load_servers_top_level_errors (path msg : String) (j : Json)
    (fields : List (String × Json)) :
    (loadServers path (.jsonFailure msg) = .error (.invalidJson path msg) ∧
      strContains "Invalid JSON" (renderError (.invalidJson path msg))) ∧
    ((∀ fs, j ≠ Json.obj fs) →
      ∃ err, loadServers path (.content j) = .error err) ∧
    (∀ v, lookupField "servers" fields = some v → (∀ es, v ≠ Json.obj es) →
      loadServers path (.content (.obj fields)) = .error .serversNotObject) := by
  refine ⟨⟨rfl, "", " in MCP configuration file " ++ path ++ ": " ++ msg, ?_⟩, ?_, ?_⟩
  · show ("Invalid JSON" ++ " in MCP configuration file " ++ path ++ ": " ++ msg) =
      ("" ++ "Invalid JSON") ++ (" in MCP configuration file " ++ path ++ ": " ++ msg)
    simp only [String.append_assoc]
    rfl
  · intro hj
    cases j with
    | obj fs => exact absurd rfl (hj fs)
    | null => exact ⟨_, rfl⟩
    | bool b => exact ⟨_, rfl⟩
    | num n => exact ⟨_, rfl⟩
    | str s => exact ⟨_, rfl⟩
    | arr items => exact ⟨_, rfl⟩
  · intro v hv hne
    cases v with
    | obj es => exact absurd rfl (hne es)
    | null => simp [loadServers, hv]
    | bool b => simp [loadServers, hv]
    | num n => simp [loadServers, hv]
    | str s => simp [loadServers, hv]
    | arr items => simp [loadServers, hv]

/-- Witness for C5: a concrete JSON-decode failure raises the
"Invalid JSON" error, a top-level array is rejected, and a string-valued
`servers` field is rejected. -/
theorem load_servers_top_level_errors_witness :
    (loadServers "p" (.jsonFailure "Expecting value") =
        .error (.invalidJson "p" "Expecting value") ∧
      strContains "Invalid JSON"
        (renderError (.invalidJson "p" "Expecting value"))) ∧
    (∃ err, loadServers "p" (.content (.arr [])) = .error err) ∧
    loadServers "p" (.content (.obj [("servers", .str "x")])) =
      .error .serversNotObject :=
  ⟨(load_servers_top_level_errors "p" "Expecting value" (.arr []) []).1,
   (load_servers_top_level_errors "p" "Expecting value" (.arr []) []).2.1
     (fun _ h => Json.noConfusion h),
   (load_servers_top_level_errors "p" "Expecting value" (.arr [])
       [("servers", .str "x")]).2.2 (.str "x") rfl
     (fun _ h => Json.noConfusion h)⟩

/-- Claim C6: a missing configuration file yields the empty sequence
rather than an error, and so does a document whose `servers` field is
absent or empty. -/
theorem load_servers_lenient_defaults (path : String)
    (fields : List (String × Json)) :
    loadServers path .missing = .ok [] ∧
    (lookupField "servers" fields = none →
      loadServers path (.content (.obj fields)) = .ok []) ∧
    (lookupField "servers" fields = some (.obj []) →
      loadServers path (.content (.obj fields)) = .ok []) := by
  refine ⟨rfl, ?_, ?_⟩
  · intro h
    simp [loadServers, h, buildServers]
  · intro h
    simp [loadServers, h, buildServers]

/-- Witness for C6: the empty document and the empty `servers` object both
load to the empty descriptor list. -/
theorem load_servers_lenient_defaults_witness :
    loadServers "absent.json" .missing = .ok [] ∧
    loadServers "p" (.content (.obj [])) = .ok [] ∧
    loadServers "p" (.content (.obj [("servers", .obj [])])) = .ok [] :=
  ⟨(load_servers_lenient_defaults "absent.json" []).1,
   (load_servers_lenient_defaults "p" []).2.1 rfl,
   (load_servers_lenient_defaults "p" [("servers", .obj [])]).2.2 rfl⟩

/-- Claim C3: an `http` entry with a present non-empty string `url` yields
exactly the HTTP descriptor carrying that URL; a missing, empty, or
non-string `url` raises an `MCPConfigurationError` whose message names the
`url` field. -/
theorem http_entry_validation (name : String) (fields : List (String × Json))
    (ht : lookupField "type" fields = some (.str "http")) :
    (∀ u, lookupField "url" fields = some (.str u) → u ≠ "" →
      createServer name (.obj fields) = .ok (.http u)) ∧
    (badUrlVal (lookupField "url" fields) = true →
      ∃ err, createServer name (.obj fields) = .error err ∧
        strContains "'url'" (renderError err)) := by
  have hred : createServer name (.obj fields) = createHttpServer name fields := by
    simp [createServer, ht, Json.falsy]
  constructor
  · intro u hu hne
    rw [hred]
    simp [createHttpServer, hu, Json.falsy, hne]
  · intro hbad
    rw [hred]
    cases hu : lookupField "url" fields with
    | none =>
        exact ⟨.httpMissingUrl name, by simp [createHttpServer, hu],
          "HTTP server '" ++ name ++ "' missing required ", " field", rfl⟩
    | some v =>
        rw [hu] at hbad
        by_cases hf : v.falsy = true
        · exact ⟨.httpMissingUrl name, by simp [createHttpServer, hu, hf],
            "HTTP server '" ++ name ++ "' missing required ", " field", rfl⟩
        · cases v with
          | str u =>
              exfalso
              have hue : u = "" := by simpa [badUrlVal] using hbad
              exact hf (by simp [Json.falsy, hue])
          | null => exact absurd rfl hf
          | bool b =>
              exact ⟨.httpUrlNotString name, by simp [createHttpServer, hu, hf],
                "HTTP server '" ++ name ++ "' ", " must be a string", rfl⟩
          | num n =>
              exact ⟨.httpUrlNotString name, by simp [createHttpServer, hu, hf],
                "HTTP server '" ++ name ++ "' ", " must be a string", rfl⟩
          | arr items =>
              exact ⟨.httpUrlNotString name, by simp [createHttpServer, hu, hf],
                "HTTP server '" ++ name ++ "' ", " must be a string", rfl⟩
          | obj ofields =>
              exact ⟨.httpUrlNotString name, by simp [createHttpServer, hu, hf],
                "HTTP server '" ++ name ++ "' ", " must be a string", rfl⟩

/-- Witness for C3: a concrete valid HTTP entry yields its descriptor, and
a concrete entry with the `url` field missing raises an error naming
`url`. -/
theorem http_entry_validation_witness :
    createServer "a" (.obj [("type", .str "http"), ("url", .str "http://x/mcp")]) =
        .ok (.http "http://x/mcp") ∧
    ∃ err, createServer "b" (.obj [("type", .str "http")]) = .error err ∧
      strContains "'url'" (renderError err) :=
  ⟨(http_entry_validation "a"
      [("type", .str "http"), ("url", .str "http://x/mcp")] rfl).1
      "http://x/mcp" rfl (by decide),
   (http_entry_validation "b" [("type", .str "http")] rfl).2 (by decide)⟩

/-- Claim C4: for a `stdio` entry, a missing `command` raises an error
naming the `command` field; an absent `args` defaults to the empty
sequence; and a first non-string `args` element at index `i` raises an
error whose message names index `i`. -/
theorem stdio_entry_validation (name : String) (fields : List (String × Json))
    (ht : lookupField "type" fields = some (.str "stdio")) :
    (lookupField "command" fields = none →
      ∃ err, createServer name (.obj fields) = .error err ∧
        strContains "'command'" (renderError err)) ∧
    (∀ c, lookupField "command" fields = some (.str c) → c ≠ "" →
      lookupField "args" fields = none →
      createServer name (.obj fields) = .ok (.stdio c [])) ∧
    (∀ (c : String) (pre : List String) (v : Json) (post : List Json),
      lookupField "command" fields = some (.str c) → c ≠ "" →
      lookupField "args" fields = some (.arr (pre.map Json.str ++ v :: post)) →
      (∀ s, v ≠ Json.str s) →
      ∃ err, createServer name (.obj fields) = .error err ∧
        strContains ("args[" ++ toString pre.length ++ "]") (renderError err)) := by
  have hred : createServer name (.obj fields) = createStdioServer name fields := by
    simp [createServer, ht, Json.falsy]
  refine ⟨?_, ?_, ?_⟩
  · intro hc
    rw [hred]
    exact ⟨.stdioMissingCommand name, by simp [createStdioServer, hc],
      "Stdio server '" ++ name ++ "' missing required ", " field", rfl⟩
  · intro c hc hne ha
    rw [hred]
    simp [createStdioServer, hc, Json.falsy, hne, ha, validateArgs, Except.map]
  · intro c pre v post hc hne ha hv
    rw [hred]
    refine ⟨.argNotString name pre.length (jsonTypeName v), ?_, ?_⟩
    · have hval := validateArgs_first_bad name pre v post hv 0
      rw [Nat.zero_add] at hval
      simp [createStdioServer, hc, Json.falsy, hne, ha, hval, Except.map]
    · refine ⟨"Stdio server '" ++ name ++ "' ",
        " must be a string, got " ++ jsonTypeName v, ?_⟩
      show ("Stdio server '" ++ name ++ "' " ++
          ("args[" ++ toString pre.length ++ "]") ++
          " must be a string, got " ++ jsonTypeName v) =
        ("Stdio server '" ++ name ++ "' ") ++
          ("args[" ++ toString pre.length ++ "]") ++
          (" must be a string, got " ++ jsonTypeName v)
      simp only [String.append_assoc]

/-- Witness for C4: a concrete entry missing `command` raises an error
naming `command`; a concrete entry without `args` yields empty arguments;
a concrete entry with a number at `args[1]` raises an error naming
index 1. -/
theorem stdio_entry_validation_witness :
    (∃ err, createServer "s1" (.obj [("type", .str "stdio")]) = .error err ∧
      strContains "'command'" (renderError err)) ∧
    createServer "s2" (.obj [("type", .str "stdio"), ("command", .str "run")]) =
      .ok (.stdio "run" []) ∧
    (∃ err, createServer "s3"
        (.obj [("type", .str "stdio"), ("command", .str "run"),
               ("args", .arr [.str "a", .num 5])]) = .error err ∧
      strContains ("args[" ++ toString 1 ++ "]") (renderError err)) :=
  ⟨(stdio_entry_validation "s1" [("type", .str "stdio")] rfl).1 rfl,
   (stdio_entry_validation "s2"
      [("type", .str "stdio"), ("command", .str "run")] rfl).2.1
      "run" rfl (by decide) rfl,
   by
    have h := (stdio_entry_validation "s3"
      [("type", .str "stdio"), ("command", .str "run"),
       ("args", .arr [.str "a", .num 5])] rfl).2.2
      "run" ["a"] (.num 5) [] rfl (by decide) rfl
      (fun s hs => Json.noConfusion hs)
    simpa using h⟩

/-- Reloading one serialized valid descriptor reproduces it. -/
theorem createServer_serializeServer (name : String) (d : MCPServer)
    (h : validServer d = true) :
    createServer name (serializeServer d) = .ok d := by
  cases d with
  | http url =>
      have hne : url ≠ "" := by simpa [validServer] using h
      simp [serializeServer, createServer, createHttpServer, lookupField,
        Json.falsy, hne]
  | stdio command args =>
      have hne : command ≠ "" := by simpa [validServer] using h
      simp [serializeServer, createServer, createStdioServer, lookupField,
        Json.falsy, hne, validateArgs_strings, Except.map]

/-- Reloading a whole serialized entry list reproduces the descriptors. -/
theorem buildServers_serializeDoc (entries : List (String × MCPServer))
    (h : ∀ e ∈ entries, validServer e.2 = true) :
    buildServers (entries.map fun e => (e.1, serializeServer e.2)) =
      entries.map Prod.snd := by
  induction entries with
  | nil => rfl
  | cons hd tl ih =>
      have hhd := h hd (List.mem_cons_self hd tl)
      have htl := fun e he => h e (List.mem_cons_of_mem hd he)
      simp only [List.map_cons, buildServers,
        createServer_serializeServer hd.1 hd.2 hhd, ih htl]

/-- Claim C9: round-trip — serializing a valid descriptor set to the JSON
document shape and reloading it through `load_servers` yields descriptors
equal in kind and fields to the originals. -/
theorem load_servers_round_trip (path : String)
    (entries : List (String × MCPServer))
    (h : ∀ e ∈ entries, validServer e.2 = true) :
    loadServers path (.content (serializeDoc entries)) =
      .ok (entries.map Prod.snd) := by
  simp [loadServers, serializeDoc, lookupField, buildServers_serializeDoc entries h]

/-- Witness for C9: a concrete HTTP + stdio descriptor set survives the
round trip unchanged. -/
theorem load_servers_round_trip_witness :
    loadServers "p" (.content (serializeDoc
        [("a", .http "http://x/mcp"), ("b", .stdio "run" ["--flag"])])) =
      .ok [.http "http://x/mcp", .stdio "run" ["--flag"]] := by
  rw [load_servers_round_trip "p"
    [("a", .http "http://x/mcp"), ("b", .stdio "run" ["--flag"])] (by decide)]
  rfl

/-- Counterexample to claim C2: in a capability configuration whose
`style` is present but whose `stability` and `similarity_boost` are
absent, the constructor call does not omit the absent parameters — the
`VoiceSettings` argument is built with the sentinel defaults 0.5 and
0.75 in their place. -/
theorem elevenlabs_stability_defaulted :
    styleOnlyConfig.stability = none ∧
    styleOnlyConfig.similarity_boost = none ∧
    (createElevenlabsTTS none styleOnlyConfig).voice_settings =
      some { stability := 0.5, similarity_boost := 0.75,
             style := some 0.3, speed := none, use_speaker_boost := none } :=
  ⟨rfl, rfl, rfl⟩

/-- Claim C2 (amended): `style`, `speed`, `use_speaker_boost` (ElevenLabs)
and `smart_format`, `interim_results` (Deepgram) are forwarded to the
constructor call exactly when present and omitted when absent, and the
whole `voice_settings` argument is omitted when all five voice settings
are absent; but when at least one voice setting is present, an absent
`stability` or `similarity_boost` is not omitted — it is passed with the
fixed default 0.5 resp. 0.75. -/
theorem optional_param_forwarding (apiKey : Option String) (cfg : TTSConfig)
    (scfg : STTConfig) :
    ((createElevenlabsTTS apiKey cfg).voice_settings = none ↔
      (cfg.stability = none ∧ cfg.similarity_boost = none ∧ cfg.style = none ∧
       cfg.speed = none ∧ cfg.use_speaker_boost = none)) ∧
    (∀ vs, (createElevenlabsTTS apiKey cfg).voice_settings = some vs →
      vs.style = cfg.style ∧ vs.speed = cfg.speed ∧
      vs.use_speaker_boost = cfg.use_speaker_boost ∧
      vs.stability = cfg.stability.getD 0.5 ∧
      vs.similarity_boost = cfg.similarity_boost.getD 0.75) ∧
    (createDeepgramSTT scfg).smart_format = scfg.smart_format ∧
    (createDeepgramSTT scfg).interim_results = scfg.interim_results := by
  refine ⟨?_, ?_, rfl, rfl⟩
  · simp only [createElevenlabsTTS]
    split
    · rename_i hcond
      simp only [Bool.or_eq_true, Option.isSome_iff_exists] at hcond
      constructor
      · intro hnone; exact absurd hnone (by simp)
      · rintro ⟨h1, h2, h3, h4, h5⟩
        simp [h1, h2, h3, h4, h5] at hcond
    · rename_i hcond
      simp only [Bool.or_eq_true, not_or, Bool.not_eq_true] at hcond
      obtain ⟨⟨⟨⟨h1, h2⟩, h3⟩, h4⟩, h5⟩ := hcond
      have e : ∀ {τ : Type} (o : Option τ), o.isSome = false → o = none := by
        intro τ o ho
        cases o with
        | none => rfl
        | some v => simp [Option.isSome] at ho
      exact ⟨fun _ => ⟨e _ h1, e _ h2, e _ h3, e _ h4, e _ h5⟩, fun _ => rfl⟩
  · intro vs hvs
    simp only [createElevenlabsTTS] at hvs
    split at hvs
    · obtain rfl : _ = vs := Option.some_inj.mp hvs
      exact ⟨rfl, rfl, rfl, rfl, rfl⟩
    · exact absurd hvs (by simp)

/-- Witness for C2 (amended): with every voice setting absent the
`voice_settings` argument is omitted, and a Deepgram configuration
without the optional flags forwards neither of them. -/
theorem optional_param_forwarding_witness :
    (createElevenlabsTTS none emptyElevenConfig).voice_settings = none ∧
    (createDeepgramSTT plainSTTConfig).smart_format = none ∧
    (createDeepgramSTT plainSTTConfig).interim_results = none :=
  ⟨(optional_param_forwarding none emptyElevenConfig plainSTTConfig).1.mpr
      ⟨rfl, rfl, rfl, rfl, rfl⟩,
   (optional_param_forwarding none emptyElevenConfig plainSTTConfig).2.2.1,
   (optional_param_forwarding none emptyElevenConfig plainSTTConfig).2.2.2⟩

/-- Claim C7: provider-name matching for TTS, STT and LLM is
case-insensitive, and every unrecognized name substitutes the default
provider (Google) with a logged warning instead of raising. -/
theorem provider_name_fallback :
    (∀ a b : String, pyLower a = pyLower b →
      selectTTSProvider (some a) = selectTTSProvider (some b) ∧
      selectSTTProvider (some a) = selectSTTProvider (some b) ∧
      selectLLMProvider (some a) = selectLLMProvider (some b)) ∧
    (∀ s : String, pyLower s ≠ "google" → pyLower s ≠ "elevenlabs" →
      selectTTSProvider (some s) = (.google, true)) ∧
    (∀ s : String, pyLower s ≠ "google" → pyLower s ≠ "deepgram" →
      selectSTTProvider (some s) = (.google, true)) ∧
    (∀ s : String, pyLower s ≠ "google" → pyLower s ≠ "openai" →
      selectLLMProvider (some s) = (.google, true)) := by
  refine ⟨?_, ?_, ?_, ?_⟩
  · intro a b h
    refine ⟨?_, ?_, ?_⟩
    · simp [selectTTSProvider, h]
    · simp [selectSTTProvider, h]
    · simp [selectLLMProvider, h]
  · intro s h1 h2
    simp [selectTTSProvider, ttsProviderOfString, h1, h2]
  · intro s h1 h2
    simp [selectSTTProvider, sttProviderOfString, h1, h2]
  · intro s h1 h2
    simp [selectLLMProvider, llmProviderOfString, h1, h2]

/-- Witness for C7: "GoOgLe" and "gOOgle" select the same providers, and
the unrecognized name "bogus" falls back to Google with a warning in all
three loaders. -/
theorem provider_name_fallback_witness :
    selectTTSProvider (some "GoOgLe") = selectTTSProvider (some "gOOgle") ∧
    selectTTSProvider (some "bogus") = (.google, true) ∧
    selectSTTProvider (some "bogus") = (.google, true) ∧
    selectLLMProvider (some "bogus") = (.google, true) :=
  ⟨(provider_name_fallback.1 "GoOgLe" "gOOgle" (by decide)).1,
   provider_name_fallback.2.1 "bogus" (by decide) (by decide),
   provider_name_fallback.2.2.1 "bogus" (by decide) (by decide),
   provider_name_fallback.2.2.2 "bogus" (by decide) (by decide)⟩

/-- Claim C8: `entrypoint` performs create-session, create-room-options,
start, connect, greet strictly in that order with no retries; the
greeting happens only after start and connect succeed, at most once; the
outcome is exception-free exactly when every step succeeds, and any
exception is the one re-raised from an attempted step. -/
theorem entrypoint_sequencing (oracle : Step → Option String) :
    (∃ rest, (runEntrypoint oracle).1 ++ rest = entrypointOrder) ∧
    (runEntrypoint oracle).1.count .greet ≤ 1 ∧
    (Step.greet ∈ (runEntrypoint oracle).1 →
      oracle .startSession = none ∧ oracle .connectRoom = none ∧
      (runEntrypoint oracle).1 = entrypointOrder) ∧
    ((runEntrypoint oracle).2 = none ↔ ∀ s, oracle s = none) ∧
    (∀ e, (runEntrypoint oracle).2 = some e →
      ∃ s ∈ (runEntrypoint oracle).1, oracle s = some e) := by
  cases h1 : oracle .createSession with
  | some e =>
      have ht : (runEntrypoint oracle).1 = [.createSession] := by
        simp [runEntrypoint, h1]
      have ho : (runEntrypoint oracle).2 = some e := by
        simp [runEntrypoint, h1]
      rw [ht, ho]
      refine ⟨⟨[.createRoomOptions, .startSession, .connectRoom, .greet], rfl⟩,
        by decide, fun hg => absurd hg (by decide), ?_, ?_⟩
      · exact ⟨fun hco => Option.noConfusion hco,
          fun hall => absurd (h1 ▸ hall .createSession) (by simp)⟩
      · intro e' he'
        exact ⟨.createSession, by decide, by rw [h1, Option.some_inj.mp he']⟩
  | none =>
  cases h2 : oracle .createRoomOptions with
  | some e =>
      have ht : (runEntrypoint oracle).1 =
          [.createSession, .createRoomOptions] := by
        simp [runEntrypoint, h1, h2]
      have ho : (runEntrypoint oracle).2 = some e := by
        simp [runEntrypoint, h1, h2]
      rw [ht, ho]
      refine ⟨⟨[.startSession, .connectRoom, .greet], rfl⟩,
        by decide, fun hg => absurd hg (by decide), ?_, ?_⟩
      · exact ⟨fun hco => Option.noConfusion hco,
          fun hall => absurd (h2 ▸ hall .createRoomOptions) (by simp)⟩
      · intro e' he'
        exact ⟨.createRoomOptions, by decide, by rw [h2, Option.some_inj.mp he']⟩
  | none =>
  cases h3 : oracle .startSession with
  | some e =>
      have ht : (runEntrypoint oracle).1 =
          [.createSession, .createRoomOptions, .startSession] := by
        simp [runEntrypoint, h1, h2, h3]
      have ho : (runEntrypoint oracle).2 = some e := by
        simp [runEntrypoint, h1, h2, h3]
      rw [ht, ho]
      refine ⟨⟨[.connectRoom, .greet], rfl⟩,
        by decide, fun hg => absurd hg (by decide), ?_, ?_⟩
      · exact ⟨fun hco => Option.noConfusion hco,
          fun hall => absurd (h3 ▸ hall .startSession) (by simp)⟩
      · intro e' he'
        exact ⟨.startSession, by decide, by rw [h3, Option.some_inj.mp he']⟩
  | none =>
  cases h4 : oracle .connectRoom with
  | some e =>
      have ht : (runEntrypoint oracle).1 =
          [.createSession, .createRoomOptions, .startSession, .connectRoom] := by
        simp [runEntrypoint, h1, h2, h3, h4]
      have ho : (runEntrypoint oracle).2 = some e := by
        simp [runEntrypoint, h1, h2, h3, h4]
      rw [ht, ho]
      refine ⟨⟨[.greet], rfl⟩,
        by decide, fun hg => absurd hg (by decide), ?_, ?_⟩
      · exact ⟨fun hco => Option.noConfusion hco,
          fun hall => absurd (h4 ▸ hall .connectRoom) (by simp)⟩
      · intro e' he'
        exact ⟨.connectRoom, by decide, by rw [h4, Option.some_inj.mp he']⟩
  | none =>
  cases h5 : oracle .greet with
  | some e =>
      have ht : (runEntrypoint oracle).1 = entrypointOrder := by
        simp [runEntrypoint, h1, h2, h3, h4, h5, entrypointOrder]
      have ho : (runEntrypoint oracle).2 = some e := by
        simp [runEntrypoint, h1, h2, h3, h4, h5]
      rw [ht, ho]
      refine ⟨⟨[], by rfl⟩, by decide, fun _ => ⟨rfl, rfl, rfl⟩, ?_, ?_⟩
      · exact ⟨fun hco => Option.noConfusion hco,
          fun hall => absurd (h5 ▸ hall .greet) (by simp)⟩
      · intro e' he'
        exact ⟨.greet, by decide, by rw [h5, Option.some_inj.mp he']⟩
  | none =>
      have ht : (runEntrypoint oracle).1 = entrypointOrder := by
        simp [runEntrypoint, h1, h2, h3, h4, h5, entrypointOrder]
      have ho : (runEntrypoint oracle).2 = none := by
        simp [runEntrypoint, h1, h2, h3, h4, h5]
      rw [ht, ho]
      refine ⟨⟨[], by rfl⟩, by decide, fun _ => ⟨rfl, rfl, rfl⟩, ?_, ?_⟩
      · refine ⟨fun _ s => ?_, fun _ => rfl⟩
        cases s
        · exact h1
        · exact h2
        · exact h3
        · exact h4
        · exact h5
      · intro e' he'
        exact absurd he' (by simp)

/-- Witness for C8: when every step succeeds, the trace is the full
ordered step list — with exactly one greeting — and no exception is
raised. -/
theorem entrypoint_sequencing_witness :
    (runEntrypoint (fun _ => none)).1 = entrypointOrder ∧
    (runEntrypoint (fun _ => none)).2 = none :=
  ⟨((entrypoint_sequencing (fun _ => none)).2.2.1 (by decide)).2.2,
   ((entrypoint_sequencing (fun _ => none)).2.2.2.1).mpr (fun _ => rfl)⟩

/-- Claim C10: `prewarm` never propagates an exception — for every VAD
and MCP-loading outcome, including an `MCPConfigurationError` for an
invalid top-level document, it catches, logs, and leaves both the `vad`
and `mcp_servers` userdata keys set, with `mcp_servers` falling back to
the empty list on any loading error. -/
theorem prewarm_never_raises {α : Type} (vadResult : Except String α)
    (path : String) (fs : FileState) :
    (prewarm vadResult (loadServers path fs)).vad.isSome = true ∧
    (prewarm vadResult (loadServers path fs)).mcp_servers.isSome = true ∧
    (∀ err, loadServers path fs = .error err →
      (prewarm vadResult (loadServers path fs)).mcp_servers = some []) ∧
    (∀ v servers, vadResult = .ok v → loadServers path fs = .ok servers →
      prewarm vadResult (loadServers path fs) =
        { vad := some (some v), mcp_servers := some servers }) := by
  cases vadResult with
  | error ev =>
      cases hm : loadServers path fs with
      | ok servers =>
          exact ⟨rfl, rfl, fun err herr => Except.noConfusion herr,
            fun v s hv _ => Except.noConfusion hv⟩
      | error err =>
          exact ⟨rfl, rfl, fun _ _ => rfl, fun v s hv _ => Except.noConfusion hv⟩
  | ok v =>
      cases hm : loadServers path fs with
      | ok servers =>
          refine ⟨rfl, rfl, fun err herr => Except.noConfusion herr, ?_⟩
          intro v' servers' hv hs
          obtain rfl : v = v' := Except.ok.inj hv
          obtain rfl : servers = servers' := Except.ok.inj hs
          rfl
      | error err =>
          exact ⟨rfl, rfl, fun _ _ => rfl,
            fun v' servers' _ hs => Except.noConfusion hs⟩

/-- Witness for C10: a VAD success combined with a JSON-decode failure in
the MCP document still sets `mcp_servers`, falling back to the empty
list. -/
theorem prewarm_never_raises_witness :
    (prewarm (Except.ok (0 : Nat))
        (loadServers "p" (.jsonFailure "bad"))).mcp_servers = some [] :=
  (prewarm_never_raises (Except.ok (0 : Nat)) "p" (.jsonFailure "bad")).2.2.1
    (.invalidJson "p" "bad") rfl

end HomeyAssistant
